import Mathlib

/-!
Verification of `go/cmd/vtctldclient/command/query.go` (vtctldclient query
commands) against its natural-language specification.

The four command handlers (`commandExecuteFetchAsApp`,
`commandExecuteFetchAsDBA`, `commandExecuteMultiFetchAsDBA`,
`commandGetUnresolvedTransactions`) are embedded as pure functions from an
environment of external collaborators (the gRPC client and the JSON encoder,
given as oracles), the resolved command options and the positional arguments,
to a pair of (final result, event trace).  The trace records, in order, the
observable interactions of one invocation: the `cli.FinishedParsing`
checkpoint, the single remote call with the request value it carries, and
every output write (one JSON document line or one rendered result table).
-/

namespace Vtctld

/-- A tablet alias: the (cell, numeric uid) identity of one tablet
(`topoproto.TabletAlias`). -/
structure TabletAlias where
  cell : String
  uid : Nat
deriving DecidableEq, Repr

/-- Errors surfaced by a command.  `malformedIdentity` is the local
tablet-alias parse failure; `other` stands for any opaque error value
returned by a collaborator (transport/server errors, encoding errors),
propagated as-is like a Go `error` value. -/
inductive Err where
  | malformedIdentity (token : String)
  | other (msg : String)
deriving DecidableEq, Repr

/-- Position of the last dash in a character list: splits `cs` into the part
before the last dash and the part after it, or `none` when there is no dash. -/
def splitLastDash : List Char → Option (List Char × List Char)
  | [] => none
  | c :: cs =>
    match splitLastDash cs with
    | some (a, b) => some (c :: a, b)
    | none => if c = '-' then some ([], cs) else none

/-- Decimal value of a digit list. -/
def natOfDigits (cs : List Char) : Nat :=
  cs.foldl (fun n c => 10 * n + (c.toNat - 48)) 0

/-- Modelled from the spec: `ParseIdentity(token) -> Identity |
MalformedIdentity error` — "parsed from a single string token", failing "if it
does not match the expected two-part (cell, numeric id) shape".  The
implementation (`topoproto.ParseTabletAlias`) is not under src/: the token is
split at its last dash, the suffix must be a nonempty run of decimal digits
(the numeric id), the prefix is the cell. -/
def parseTabletAlias (token : String) : Except Err TabletAlias :=
  match splitLastDash token.toList with
  | none => .error (.malformedIdentity token)
  | some (cellCs, idCs) =>
    if idCs ≠ [] ∧ idCs.all Char.isDigit then
      .ok ⟨String.mk cellCs, natOfDigits idCs⟩
    else
      .error (.malformedIdentity token)

/-- A tabular query result on the wire (`querypb.QueryResult` inside the RPC
reply); its content is opaque to this core. -/
structure QueryResultProto where
  payload : String
deriving DecidableEq, Repr

/-- A decoded tabular result (`sqltypes.Result`). -/
structure SqlResult where
  payload : String
deriving DecidableEq, Repr

/-- Modelled from the spec: "decode the reply into either a single Tabular
Result or a Result Batch" — `sqltypes.Proto3ToResult` is not under src/; it
deterministically decodes one wire result into one tabular result and is
applied per element of a batch. -/
def proto3ToResult (p : QueryResultProto) : SqlResult :=
  ⟨p.payload⟩

/-- One unresolved transaction in a `GetUnresolvedTransactions` reply
(opaque to this core). -/
structure Transaction where
  payload : String
deriving DecidableEq, Repr

/-- `vtctldatapb.ExecuteFetchAsAppRequest`: exactly the fields the proto
message declares and the handler populates. -/
structure ExecuteFetchAsAppRequest where
  tabletAlias : TabletAlias
  query : String
  maxRows : Int
  usePool : Bool
deriving DecidableEq, Repr

/-- `vtctldatapb.ExecuteFetchAsDBARequest`: exactly the fields the proto
message declares and the handler populates. -/
structure ExecuteFetchAsDBARequest where
  tabletAlias : TabletAlias
  query : String
  maxRows : Int
  disableBinlogs : Bool
  reloadSchema : Bool
deriving DecidableEq, Repr

/-- `vtctldatapb.ExecuteMultiFetchAsDBARequest`: exactly the fields the proto
message declares and the handler populates. -/
structure ExecuteMultiFetchAsDBARequest where
  tabletAlias : TabletAlias
  sql : String
  maxRows : Int
  disableBinlogs : Bool
  reloadSchema : Bool
deriving DecidableEq, Repr

/-- `vtctldatapb.GetUnresolvedTransactionsRequest`. -/
structure GetUnresolvedTransactionsRequest where
  keyspace : String
deriving DecidableEq, Repr

/-- `vtctldatapb.ExecuteFetchAsAppResponse`. -/
structure ExecuteFetchAsAppResponse where
  result : QueryResultProto
deriving DecidableEq, Repr

/-- `vtctldatapb.ExecuteFetchAsDBAResponse`. -/
structure ExecuteFetchAsDBAResponse where
  result : QueryResultProto
deriving DecidableEq, Repr

/-- `vtctldatapb.ExecuteMultiFetchAsDBAResponse`: an ordered batch of wire
results, one per submitted statement. -/
structure ExecuteMultiFetchAsDBAResponse where
  results : List QueryResultProto
deriving DecidableEq, Repr

/-- `vtctldatapb.GetUnresolvedTransactionsResponse`. -/
structure GetUnresolvedTransactionsResponse where
  transactions : List Transaction
deriving DecidableEq, Repr

/-- A serialized document: either one encoded value or an ordered collection
of sub-documents.  This is the shape of what `cli.MarshalJSON` produces. -/
inductive Doc where
  | atom (s : String)
  | arr (ds : List Doc)

/-- The external collaborators of one invocation, as oracles: the vtctld
client's four remote calls (each a function from the request value to the
reply or a transport/server error) and the per-value document encoders used
by `cli.MarshalJSON`. -/
structure Env where
  execApp : ExecuteFetchAsAppRequest → Except Err ExecuteFetchAsAppResponse
  execDBA : ExecuteFetchAsDBARequest → Except Err ExecuteFetchAsDBAResponse
  execMulti : ExecuteMultiFetchAsDBARequest → Except Err ExecuteMultiFetchAsDBAResponse
  getUnresolved : GetUnresolvedTransactionsRequest → Except Err GetUnresolvedTransactionsResponse
  encodeResult : SqlResult → Except Err Doc
  encodeTransaction : Transaction → Except Err Doc

/-- Encode a list of values left to right, failing on the first encoding
error (the behavior of Go's JSON encoder on a slice). -/
def encodeList {α : Type} (f : α → Except Err Doc) : List α → Except Err (List Doc)
  | [] => .ok []
  | x :: xs =>
    match f x with
    | .error e => .error e
    | .ok d =>
      match encodeList f xs with
      | .error e => .error e
      | .ok ds => .ok (d :: ds)

/-- Modelled from the spec: `SerializeToDocument` on a single tabular result
(`cli.MarshalJSON(qr)`, not under src/) — "stable, deterministic encoding". -/
def marshalResultJSON (env : Env) (qr : SqlResult) : Except Err Doc :=
  env.encodeResult qr

/-- Modelled from the spec: `SerializeToDocument` on an ordered result batch
(`cli.MarshalJSON(qrs)`, not under src/) — "for a batch, the document is an
ordered collection of per-statement result documents", failing when any
element cannot be represented. -/
def marshalResultsJSON (env : Env) (qrs : List SqlResult) : Except Err Doc :=
  match encodeList env.encodeResult qrs with
  | .error e => .error e
  | .ok ds => .ok (.arr ds)

/-- Modelled from the spec: `SerializeToDocument` on an unresolved
transaction set (`cli.MarshalJSON(resp.Transactions)`, not under src/). -/
def marshalTransactionsJSON (env : Env) (txs : List Transaction) : Except Err Doc :=
  match encodeList env.encodeTransaction txs with
  | .error e => .error e
  | .ok ds => .ok (.arr ds)

/-- One observable interaction of an invocation, in program order:
the `cli.FinishedParsing` checkpoint, one of the four remote calls with the
request it carries, one JSON document written as a single line
(`fmt.Printf` of the marshalled data plus a newline), or one result table
rendered to the output stream (`cli.WriteQueryResultTable`). -/
inductive Event where
  | finishedParsing
  | rpcApp (req : ExecuteFetchAsAppRequest)
  | rpcDBA (req : ExecuteFetchAsDBARequest)
  | rpcMulti (req : ExecuteMultiFetchAsDBARequest)
  | rpcGetUnresolved (req : GetUnresolvedTransactionsRequest)
  | printDocLine (d : Doc)
  | writeTable (qr : SqlResult)

/-- Is this event a remote (network) call? -/
def Event.isRpc : Event → Bool
  | .rpcApp _ => true
  | .rpcDBA _ => true
  | .rpcMulti _ => true
  | .rpcGetUnresolved _ => true
  | _ => false

/-- Is this event an output write? -/
def Event.isOutput : Event → Bool
  | .printDocLine _ => true
  | .writeTable _ => true
  | _ => false

/-- Is this event the finished-parsing checkpoint? -/
def Event.isFinishedParsing : Event → Bool
  | .finishedParsing => true
  | _ => false

/-- Number of remote calls in a trace. -/
def rpcCount (tr : List Event) : Nat :=
  (tr.filter Event.isRpc).length

/-- The output writes of a trace, in order. -/
def outputEvents (tr : List Event) : List Event :=
  tr.filter Event.isOutput

/-- Number of `cli.FinishedParsing` checkpoints in a trace. -/
def fpCount (tr : List Event) : Nat :=
  (tr.filter Event.isFinishedParsing).length

/-- `cmd.Flags().Arg(i)`: the i-th positional argument, or the empty string
when out of range. -/
def argN (args : List String) (i : Nat) : String :=
  (args.get? i).getD ""

/-- The `executeFetchAsAppOptions` struct: resolved option values of one
`ExecuteFetchAsApp` invocation. -/
structure ExecuteFetchAsAppOptions where
  maxRows : Int
  usePool : Bool
  json : Bool
deriving DecidableEq, Repr

/-- The `executeFetchAsDBAOptions` struct: resolved option values of one
`ExecuteFetchAsDBA` invocation. -/
structure ExecuteFetchAsDBAOptions where
  maxRows : Int
  disableBinlogs : Bool
  reloadSchema : Bool
  json : Bool
deriving DecidableEq, Repr

/-- The `executeMultiFetchAsDBAOptions` struct: resolved option values of one
`ExecuteMultiFetchAsDBA` invocation. -/
structure ExecuteMultiFetchAsDBAOptions where
  maxRows : Int
  disableBinlogs : Bool
  reloadSchema : Bool
  json : Bool
deriving DecidableEq, Repr

/-- The flags supplied on one `ExecuteFetchAsApp` command line; `none` means
the flag was not given. -/
structure AppFlags where
  maxRows : Option Int
  usePool : Option Bool
  json : Option Bool
deriving DecidableEq, Repr

/-- The flags supplied on one `ExecuteFetchAsDBA` command line. -/
structure DBAFlags where
  maxRows : Option Int
  disableBinlogs : Option Bool
  reloadSchema : Option Bool
  json : Option Bool
deriving DecidableEq, Repr

/-- The flags supplied on one `ExecuteMultiFetchAsDBA` command line. -/
structure MultiFlags where
  maxRows : Option Int
  disableBinlogs : Option Bool
  reloadSchema : Option Bool
  json : Option Bool
deriving DecidableEq, Repr

/-- Flag resolution registered for `ExecuteFetchAsApp`:
`Int64Var(&MaxRows, "max-rows", 10_000, ...)`, `BoolVar(&UsePool, "use-pool",
false, ...)`, `BoolVarP(&JSON, "json", "j", false, ...)` — each option takes
the supplied value, or its registered default when unsupplied. -/
def resolveAppOptions (f : AppFlags) : ExecuteFetchAsAppOptions :=
  { maxRows := f.maxRows.getD 10000
    usePool := f.usePool.getD false
    json := f.json.getD false }

/-- Flag resolution registered for `ExecuteFetchAsDBA` (defaults: max-rows
10_000, disable-binlogs false, reload-schema false, json false). -/
def resolveDBAOptions (f : DBAFlags) : ExecuteFetchAsDBAOptions :=
  { maxRows := f.maxRows.getD 10000
    disableBinlogs := f.disableBinlogs.getD false
    reloadSchema := f.reloadSchema.getD false
    json := f.json.getD false }

/-- Flag resolution registered for `ExecuteMultiFetchAsDBA` (defaults:
max-rows 10_000, disable-binlogs false, reload-schema false, json false). -/
def resolveMultiOptions (f : MultiFlags) : ExecuteMultiFetchAsDBAOptions :=
  { maxRows := f.maxRows.getD 10000
    disableBinlogs := f.disableBinlogs.getD false
    reloadSchema := f.reloadSchema.getD false
    json := f.json.getD false }

/-- The `ExecuteFetchAsAppRequest` value `commandExecuteFetchAsApp` builds:
the parsed alias, positional argument 1 as the query, and the option
values. -/
def builtAppRequest (opts : ExecuteFetchAsAppOptions) (args : List String)
    (ta : TabletAlias) : ExecuteFetchAsAppRequest :=
  { tabletAlias := ta
    query := argN args 1
    maxRows := opts.maxRows
    usePool := opts.usePool }

/-- The `ExecuteFetchAsDBARequest` value `commandExecuteFetchAsDBA` builds. -/
def builtDBARequest (opts : ExecuteFetchAsDBAOptions) (args : List String)
    (ta : TabletAlias) : ExecuteFetchAsDBARequest :=
  { tabletAlias := ta
    query := argN args 1
    maxRows := opts.maxRows
    disableBinlogs := opts.disableBinlogs
    reloadSchema := opts.reloadSchema }

/-- The `ExecuteMultiFetchAsDBARequest` value
`commandExecuteMultiFetchAsDBA` builds. -/
def builtMultiRequest (opts : ExecuteMultiFetchAsDBAOptions) (args : List String)
    (ta : TabletAlias) : ExecuteMultiFetchAsDBARequest :=
  { tabletAlias := ta
    sql := argN args 1
    maxRows := opts.maxRows
    disableBinlogs := opts.disableBinlogs
    reloadSchema := opts.reloadSchema }

/-- `commandExecuteFetchAsApp`: parse the tablet alias from positional
argument 0 (returning its error on failure, before anything else), hit the
`cli.FinishedParsing` checkpoint, build the request, make the
`ExecuteFetchAsApp` remote call (returning its error on failure), decode the
result, and render it as a JSON document line or as a table according to the
`json` option.  Returns the handler's `error` result paired with the ordered
trace of observable interactions. -/
def commandExecuteFetchAsApp (env : Env) (opts : ExecuteFetchAsAppOptions)
    (args : List String) : Except Err Unit × List Event :=
  match parseTabletAlias (argN args 0) with
  | .error e => (.error e, [])
  | .ok ta =>
    let req := builtAppRequest opts args ta
    match env.execApp req with
    | .error e => (.error e, [.finishedParsing, .rpcApp req])
    | .ok resp =>
      let qr := proto3ToResult resp.result
      if opts.json then
        match marshalResultJSON env qr with
        | .error e => (.error e, [.finishedParsing, .rpcApp req])
        | .ok d => (.ok (), [.finishedParsing, .rpcApp req, .printDocLine d])
      else
        (.ok (), [.finishedParsing, .rpcApp req, .writeTable qr])

/-- `commandExecuteFetchAsDBA`: same skeleton as the App variant, calling
`ExecuteFetchAsDBA` with the DBA-tier request fields. -/
def commandExecuteFetchAsDBA (env : Env) (opts : ExecuteFetchAsDBAOptions)
    (args : List String) : Except Err Unit × List Event :=
  match parseTabletAlias (argN args 0) with
  | .error e => (.error e, [])
  | .ok ta =>
    let req := builtDBARequest opts args ta
    match env.execDBA req with
    | .error e => (.error e, [.finishedParsing, .rpcDBA req])
    | .ok resp =>
      let qr := proto3ToResult resp.result
      if opts.json then
        match marshalResultJSON env qr with
        | .error e => (.error e, [.finishedParsing, .rpcDBA req])
        | .ok d => (.ok (), [.finishedParsing, .rpcDBA req, .printDocLine d])
      else
        (.ok (), [.finishedParsing, .rpcDBA req, .writeTable qr])

/-- `commandExecuteMultiFetchAsDBA`: parse the alias, checkpoint, call
`ExecuteMultiFetchAsDBA`, decode every wire result of the reply in order, and
render the batch either as one JSON document line (the ordered collection of
per-statement documents) or as one table per result in order. -/
def commandExecuteMultiFetchAsDBA (env : Env) (opts : ExecuteMultiFetchAsDBAOptions)
    (args : List String) : Except Err Unit × List Event :=
  match parseTabletAlias (argN args 0) with
  | .error e => (.error e, [])
  | .ok ta =>
    let req := builtMultiRequest opts args ta
    match env.execMulti req with
    | .error e => (.error e, [.finishedParsing, .rpcMulti req])
    | .ok resp =>
      let qrs := resp.results.map proto3ToResult
      if opts.json then
        match marshalResultsJSON env qrs with
        | .error e => (.error e, [.finishedParsing, .rpcMulti req])
        | .ok d => (.ok (), [.finishedParsing, .rpcMulti req, .printDocLine d])
      else
        (.ok (), [.finishedParsing, .rpcMulti req] ++ qrs.map Event.writeTable)

/-- `commandGetUnresolvedTransactions`: checkpoint, forward positional
argument 0 as the keyspace with no local validation, call
`GetUnresolvedTransactions`, and always serialize the reply's transactions
as one JSON document line (no table mode exists for this command). -/
def commandGetUnresolvedTransactions (env : Env) (args : List String) :
    Except Err Unit × List Event :=
  let req : GetUnresolvedTransactionsRequest := { keyspace := argN args 0 }
  match env.getUnresolved req with
  | .error e => (.error e, [.finishedParsing, .rpcGetUnresolved req])
  | .ok resp =>
    match marshalTransactionsJSON env resp.transactions with
    | .error e => (.error e, [.finishedParsing, .rpcGetUnresolved req])
    | .ok d => (.ok (), [.finishedParsing, .rpcGetUnresolved req, .printDocLine d])

/-- A proto field value, for viewing a request as its wire-level field map. -/
inductive FieldVal where
  | str (s : String)
  | int (i : Int)
  | bool (b : Bool)
  | tablet (a : TabletAlias)
deriving DecidableEq, Repr

/-- The wire-level field map of an `ExecuteFetchAsAppRequest`: exactly the
fields the proto message declares. -/
def appRequestFields (r : ExecuteFetchAsAppRequest) : List (String × FieldVal) :=
  [("tablet_alias", .tablet r.tabletAlias), ("query", .str r.query),
   ("max_rows", .int r.maxRows), ("use_pool", .bool r.usePool)]

/-- The wire-level field map of an `ExecuteFetchAsDBARequest`. -/
def dbaRequestFields (r : ExecuteFetchAsDBARequest) : List (String × FieldVal) :=
  [("tablet_alias", .tablet r.tabletAlias), ("query", .str r.query),
   ("max_rows", .int r.maxRows), ("disable_binlogs", .bool r.disableBinlogs),
   ("reload_schema", .bool r.reloadSchema)]

/-- The wire-level field map of an `ExecuteMultiFetchAsDBARequest`. -/
def multiRequestFields (r : ExecuteMultiFetchAsDBARequest) : List (String × FieldVal) :=
  [("tablet_alias", .tablet r.tabletAlias), ("sql", .str r.sql),
   ("max_rows", .int r.maxRows), ("disable_binlogs", .bool r.disableBinlogs),
   ("reload_schema", .bool r.reloadSchema)]

/-- The field names of a field map. -/
def fieldKeys (fs : List (String × FieldVal)) : List String :=
  fs.map Prod.fst

/-- The `ExecuteFetchAsApp` requests a trace carries, in order. -/
def appRequestsOf (tr : List Event) : List ExecuteFetchAsAppRequest :=
  tr.filterMap fun ev =>
    match ev with
    | .rpcApp r => some r
    | _ => none

/-- The `ExecuteFetchAsDBA` requests a trace carries, in order. -/
def dbaRequestsOf (tr : List Event) : List ExecuteFetchAsDBARequest :=
  tr.filterMap fun ev =>
    match ev with
    | .rpcDBA r => some r
    | _ => none

/-- The `ExecuteMultiFetchAsDBA` requests a trace carries, in order. -/
def multiRequestsOf (tr : List Event) : List ExecuteMultiFetchAsDBARequest :=
  tr.filterMap fun ev =>
    match ev with
    | .rpcMulti r => some r
    | _ => none

/-- A collaborator environment in which every remote call succeeds and every
value encodes successfully; used to instantiate universally quantified
theorems at concrete inputs. -/
def testEnv : Env :=
  { execApp := fun _ => .ok ⟨⟨"app-result"⟩⟩
    execDBA := fun _ => .ok ⟨⟨"dba-result"⟩⟩
    execMulti := fun _ => .ok ⟨[⟨"r1"⟩, ⟨"r2"⟩]⟩
    getUnresolved := fun _ => .ok ⟨[⟨"tx1"⟩]⟩
    encodeResult := fun qr => .ok (.atom qr.payload)
    encodeTransaction := fun t => .ok (.atom t.payload) }

/-- A collaborator environment in which every remote call fails with the same
opaque transport error. -/
def rpcFailEnv : Env :=
  { execApp := fun _ => .error (.other "transport failure")
    execDBA := fun _ => .error (.other "transport failure")
    execMulti := fun _ => .error (.other "transport failure")
    getUnresolved := fun _ => .error (.other "transport failure")
    encodeResult := fun qr => .ok (.atom qr.payload)
    encodeTransaction := fun t => .ok (.atom t.payload) }

/-- A collaborator environment in which remote calls succeed but the document
encoder rejects every value. -/
def encFailEnv : Env :=
  { testEnv with
    encodeResult := fun _ => .error (.other "unrepresentable value")
    encodeTransaction := fun _ => .error (.other "unrepresentable value") }

example : parseTabletAlias "zone1-0000000100" = .ok ⟨"zone1", 100⟩ := rfl

example : parseTabletAlias "not-an-alias" = .error (.malformedIdentity "not-an-alias") := rfl

example : parseTabletAlias "noseparator" = .error (.malformedIdentity "noseparator") := rfl

example : parseTabletAlias "cell-a-7" = .ok ⟨"cell-a", 7⟩ := rfl

/-- A tablet-alias parse failure is always the malformed-identity error
naming the offending token. -/
theorem parseTabletAlias_error_eq {t : String} {e : Err}
    (h : parseTabletAlias t = .error e) : e = .malformedIdentity t := by
  unfold parseTabletAlias at h
  split at h
  · simp only [Except.error.injEq] at h
    exact h.symm
  · split at h
    · simp at h
    · simp only [Except.error.injEq] at h
      exact h.symm

/-- Every `ExecuteFetchAsApp` request in an invocation's trace is the one
request the handler builds from the parsed alias, the arguments and the
options. -/
theorem appRequestsOf_trace (env : Env) (opts : ExecuteFetchAsAppOptions)
    (args : List String) (r : ExecuteFetchAsAppRequest)
    (hr : r ∈ appRequestsOf (commandExecuteFetchAsApp env opts args).2) :
    ∃ ta, parseTabletAlias (argN args 0) = .ok ta ∧ r = builtAppRequest opts args ta := by
  cases hp : parseTabletAlias (argN args 0) with
  | error e =>
    simp only [commandExecuteFetchAsApp, hp] at hr
    simp [appRequestsOf] at hr
  | ok ta =>
    refine ⟨ta, rfl, ?_⟩
    simp only [commandExecuteFetchAsApp, hp] at hr
    cases hrpc : env.execApp (builtAppRequest opts args ta) with
    | error e =>
      simp only [hrpc] at hr
      simpa [appRequestsOf] using hr
    | ok resp =>
      simp only [hrpc] at hr
      split at hr
      · split at hr <;> simpa [appRequestsOf] using hr
      · simpa [appRequestsOf] using hr

/-- Every `ExecuteFetchAsDBA` request in an invocation's trace is the one
request the handler builds. -/
theorem dbaRequestsOf_trace (env : Env) (opts : ExecuteFetchAsDBAOptions)
    (args : List String) (r : ExecuteFetchAsDBARequest)
    (hr : r ∈ dbaRequestsOf (commandExecuteFetchAsDBA env opts args).2) :
    ∃ ta, parseTabletAlias (argN args 0) = .ok ta ∧ r = builtDBARequest opts args ta := by
  cases hp : parseTabletAlias (argN args 0) with
  | error e =>
    simp only [commandExecuteFetchAsDBA, hp] at hr
    simp [dbaRequestsOf] at hr
  | ok ta =>
    refine ⟨ta, rfl, ?_⟩
    simp only [commandExecuteFetchAsDBA, hp] at hr
    cases hrpc : env.execDBA (builtDBARequest opts args ta) with
    | error e =>
      simp only [hrpc] at hr
      simpa [dbaRequestsOf] using hr
    | ok resp =>
      simp only [hrpc] at hr
      split at hr
      · split at hr <;> simpa [dbaRequestsOf] using hr
      · simpa [dbaRequestsOf] using hr

/-- Every `ExecuteMultiFetchAsDBA` request in an invocation's trace is the
one request the handler builds. -/
theorem multiRequestsOf_trace (env : Env) (opts : ExecuteMultiFetchAsDBAOptions)
    (args : List String) (r : ExecuteMultiFetchAsDBARequest)
    (hr : r ∈ multiRequestsOf (commandExecuteMultiFetchAsDBA env opts args).2) :
    ∃ ta, parseTabletAlias (argN args 0) = .ok ta ∧ r = builtMultiRequest opts args ta := by
  cases hp : parseTabletAlias (argN args 0) with
  | error e =>
    simp only [commandExecuteMultiFetchAsDBA, hp] at hr
    simp [multiRequestsOf] at hr
  | ok ta =>
    refine ⟨ta, rfl, ?_⟩
    simp only [commandExecuteMultiFetchAsDBA, hp] at hr
    cases hrpc : env.execMulti (builtMultiRequest opts args ta) with
    | error e =>
      simp only [hrpc] at hr
      simpa [multiRequestsOf] using hr
    | ok resp =>
      simp only [hrpc] at hr
      split at hr
      · split at hr <;> simpa [multiRequestsOf] using hr
      · simpa [multiRequestsOf] using hr

/-- C1: when positional token 0 is not a well-formed two-part (cell, numeric
id) tablet alias, each of the three fetch commands returns the
malformed-identity parse error with an empty trace — zero remote calls, and
the same result for every option value, so the failure happens before any
option processing. -/
theorem C1_malformed_alias_short_circuits (env : Env) (args : List String) (e : Err)
    (hbad : parseTabletAlias (argN args 0) = .error e) :
    e = .malformedIdentity (argN args 0)
    ∧ (∀ opts : ExecuteFetchAsAppOptions,
        commandExecuteFetchAsApp env opts args = (.error e, [])
        ∧ rpcCount (commandExecuteFetchAsApp env opts args).2 = 0)
    ∧ (∀ opts : ExecuteFetchAsDBAOptions,
        commandExecuteFetchAsDBA env opts args = (.error e, [])
        ∧ rpcCount (commandExecuteFetchAsDBA env opts args).2 = 0)
    ∧ (∀ opts : ExecuteMultiFetchAsDBAOptions,
        commandExecuteMultiFetchAsDBA env opts args = (.error e, [])
        ∧ rpcCount (commandExecuteMultiFetchAsDBA env opts args).2 = 0) := by
  refine ⟨parseTabletAlias_error_eq hbad, ?_, ?_, ?_⟩ <;> intro opts <;> constructor <;>
    simp [commandExecuteFetchAsApp, commandExecuteFetchAsDBA,
      commandExecuteMultiFetchAsDBA, hbad, rpcCount]

/-- Witness for C1 at the spec's scenario token `"not-an-alias"`. -/
theorem C1_malformed_alias_short_circuits_witness :
    parseTabletAlias (argN ["not-an-alias", "select 1"] 0)
        = .error (.malformedIdentity "not-an-alias")
    ∧ commandExecuteFetchAsApp testEnv ⟨10000, false, false⟩ ["not-an-alias", "select 1"]
        = (.error (.malformedIdentity "not-an-alias"), []) := by
  have h := C1_malformed_alias_short_circuits testEnv ["not-an-alias", "select 1"]
    (.malformedIdentity "not-an-alias") rfl
  exact ⟨rfl, (h.2.1 ⟨10000, false, false⟩).1⟩

/-- C2: for each fetch command, every request the invocation sends carries a
MaxRows equal to the supplied max-rows flag value, or 10,000 when the flag is
unsupplied. -/
theorem C2_maxRows_flag_or_default (env : Env) (args : List String)
    (fa : AppFlags) (fd : DBAFlags) (fm : MultiFlags) :
    (∀ r ∈ appRequestsOf (commandExecuteFetchAsApp env (resolveAppOptions fa) args).2,
        r.maxRows = fa.maxRows.getD 10000)
    ∧ (∀ r ∈ dbaRequestsOf (commandExecuteFetchAsDBA env (resolveDBAOptions fd) args).2,
        r.maxRows = fd.maxRows.getD 10000)
    ∧ (∀ r ∈ multiRequestsOf
          (commandExecuteMultiFetchAsDBA env (resolveMultiOptions fm) args).2,
        r.maxRows = fm.maxRows.getD 10000) := by
  refine ⟨?_, ?_, ?_⟩
  · intro r hr
    obtain ⟨ta, -, rfl⟩ := appRequestsOf_trace _ _ _ _ hr
    simp [builtAppRequest, resolveAppOptions]
  · intro r hr
    obtain ⟨ta, -, rfl⟩ := dbaRequestsOf_trace _ _ _ _ hr
    simp [builtDBARequest, resolveDBAOptions]
  · intro r hr
    obtain ⟨ta, -, rfl⟩ := multiRequestsOf_trace _ _ _ _ hr
    simp [builtMultiRequest, resolveMultiOptions]

/-- Witness for C2: with no flags supplied, the request actually sent by an
`ExecuteFetchAsApp` invocation carries MaxRows 10,000. -/
theorem C2_maxRows_flag_or_default_witness :
    (builtAppRequest (resolveAppOptions ⟨none, none, none⟩)
        ["zone1-0000000100", "select 1"] ⟨"zone1", 100⟩).maxRows = 10000 := by
  have h := C2_maxRows_flag_or_default testEnv ["zone1-0000000100", "select 1"]
    ⟨none, none, none⟩ ⟨none, none, none, none⟩ ⟨none, none, none, none⟩
  exact h.1 _ (by decide)

/-- C3: every request an invocation sends carries exactly its tier's field
set: App-tier requests carry `use_pool` and no `disable_binlogs` or
`reload_schema`; DBA-tier requests (single and multi) carry
`disable_binlogs` and `reload_schema` and no `use_pool`. -/
theorem C3_field_isolation (env : Env) (args : List String)
    (oa : ExecuteFetchAsAppOptions) (od : ExecuteFetchAsDBAOptions)
    (om : ExecuteMultiFetchAsDBAOptions) :
    (∀ r ∈ appRequestsOf (commandExecuteFetchAsApp env oa args).2,
        fieldKeys (appRequestFields r) = ["tablet_alias", "query", "max_rows", "use_pool"]
        ∧ "disable_binlogs" ∉ fieldKeys (appRequestFields r)
        ∧ "reload_schema" ∉ fieldKeys (appRequestFields r))
    ∧ (∀ r ∈ dbaRequestsOf (commandExecuteFetchAsDBA env od args).2,
        fieldKeys (dbaRequestFields r)
          = ["tablet_alias", "query", "max_rows", "disable_binlogs", "reload_schema"]
        ∧ "use_pool" ∉ fieldKeys (dbaRequestFields r))
    ∧ (∀ r ∈ multiRequestsOf (commandExecuteMultiFetchAsDBA env om args).2,
        fieldKeys (multiRequestFields r)
          = ["tablet_alias", "sql", "max_rows", "disable_binlogs", "reload_schema"]
        ∧ "use_pool" ∉ fieldKeys (multiRequestFields r)) := by
  refine ⟨fun r _ => ⟨rfl, ?_, ?_⟩, fun r _ => ⟨rfl, ?_⟩, fun r _ => ⟨rfl, ?_⟩⟩ <;>
    simp [fieldKeys, appRequestFields, dbaRequestFields, multiRequestFields]

/-- Witness for C3: the DBA request actually sent by a default
`ExecuteFetchAsDBA` invocation carries no `use_pool` field. -/
theorem C3_field_isolation_witness :
    "use_pool" ∉ fieldKeys (dbaRequestFields
      (builtDBARequest ⟨10000, false, false, false⟩
        ["zone1-0000000100", "select 1"] ⟨"zone1", 100⟩)) := by
  have h := C3_field_isolation testEnv ["zone1-0000000100", "select 1"]
    ⟨10000, false, false⟩ ⟨10000, false, false, false⟩ ⟨10000, false, false, false⟩
  exact (h.2.1 _ (by decide)).2

/-- When encoding a list succeeds, the produced documents correspond
pairwise, in order, to the successful encodings of the inputs. -/
theorem encodeList_ok_forall₂ {α : Type} {f : α → Except Err Doc} :
    ∀ {xs : List α} {ds : List Doc}, encodeList f xs = .ok ds →
      List.Forall₂ (fun x d => f x = .ok d) xs ds := by
  intro xs
  induction xs with
  | nil =>
    intro ds h
    simp only [encodeList, Except.ok.injEq] at h
    subst h
    exact .nil
  | cons x xs ih =>
    intro ds h
    simp only [encodeList] at h
    cases hf : f x with
    | error e =>
      simp only [hf] at h
      exact Except.noConfusion h
    | ok d =>
      simp only [hf] at h
      cases hrest : encodeList f xs with
      | error e =>
        simp only [hrest] at h
        exact Except.noConfusion h
      | ok ds2 =>
        simp only [hrest, Except.ok.injEq] at h
        subst h
        exact .cons hf (ih hrest)

/-- C4: in json mode, when the reply to `ExecuteMultiFetchAsDBA` carries N
results and the batch encodes successfully, the invocation writes exactly one
document line, the document is the ordered collection of exactly N
sub-documents, and the i-th sub-document is the encoding of the i-th reply
result (statement submission order). -/
theorem C4_multi_json_ordered_batch (env : Env) (opts : ExecuteMultiFetchAsDBAOptions)
    (args : List String) (ta : TabletAlias) (resp : ExecuteMultiFetchAsDBAResponse)
    (ds : List Doc)
    (hp : parseTabletAlias (argN args 0) = .ok ta)
    (hj : opts.json = true)
    (hrpc : env.execMulti (builtMultiRequest opts args ta) = .ok resp)
    (henc : encodeList env.encodeResult (resp.results.map proto3ToResult) = .ok ds) :
    outputEvents (commandExecuteMultiFetchAsDBA env opts args).2
      = [Event.printDocLine (Doc.arr ds)]
    ∧ ds.length = resp.results.length
    ∧ List.Forall₂ (fun p d => env.encodeResult (proto3ToResult p) = .ok d)
        resp.results ds := by
  have hfa : List.Forall₂ (fun p d => env.encodeResult (proto3ToResult p) = .ok d)
      resp.results ds :=
    List.forall₂_map_left_iff.mp (encodeList_ok_forall₂ henc)
  refine ⟨?_, hfa.length_eq.symm, hfa⟩
  simp [commandExecuteMultiFetchAsDBA, hp, hrpc, hj, marshalResultsJSON, henc,
    outputEvents, Event.isOutput]

/-- Witness for C4 on a two-statement batch. -/
theorem C4_multi_json_ordered_batch_witness :
    outputEvents (commandExecuteMultiFetchAsDBA testEnv ⟨10000, false, false, true⟩
        ["zone1-0000000100", "select 1; select 2"]).2
      = [Event.printDocLine (Doc.arr [.atom "r1", .atom "r2"])] := by
  have h := C4_multi_json_ordered_batch testEnv ⟨10000, false, false, true⟩
    ["zone1-0000000100", "select 1; select 2"] ⟨"zone1", 100⟩
    ⟨[⟨"r1"⟩, ⟨"r2"⟩]⟩ [.atom "r1", .atom "r2"] rfl rfl rfl rfl
  exact h.1

/-- C5: in table mode, when the reply to `ExecuteMultiFetchAsDBA` carries N
results, the invocation succeeds and its output is exactly the N rendered
result tables, one per decoded result, in submission order. -/
theorem C5_multi_table_blocks (env : Env) (opts : ExecuteMultiFetchAsDBAOptions)
    (args : List String) (ta : TabletAlias) (resp : ExecuteMultiFetchAsDBAResponse)
    (hp : parseTabletAlias (argN args 0) = .ok ta)
    (hj : opts.json = false)
    (hrpc : env.execMulti (builtMultiRequest opts args ta) = .ok resp) :
    (commandExecuteMultiFetchAsDBA env opts args).1 = .ok ()
    ∧ outputEvents (commandExecuteMultiFetchAsDBA env opts args).2
        = (resp.results.map proto3ToResult).map Event.writeTable
    ∧ (outputEvents (commandExecuteMultiFetchAsDBA env opts args).2).length
        = resp.results.length := by
  have htr : outputEvents (commandExecuteMultiFetchAsDBA env opts args).2
      = (resp.results.map proto3ToResult).map Event.writeTable := by
    simp [commandExecuteMultiFetchAsDBA, hp, hrpc, hj, outputEvents,
      Event.isOutput, List.filter_map, Function.comp_def]
  refine ⟨?_, htr, by simp [htr]⟩
  simp [commandExecuteMultiFetchAsDBA, hp, hrpc, hj]

/-- Witness for C5 on a two-statement batch. -/
theorem C5_multi_table_blocks_witness :
    outputEvents (commandExecuteMultiFetchAsDBA testEnv ⟨10000, false, false, false⟩
        ["zone1-0000000100", "select 1; select 2"]).2
      = [Event.writeTable ⟨"r1"⟩, Event.writeTable ⟨"r2"⟩] := by
  have h := C5_multi_table_blocks testEnv ⟨10000, false, false, false⟩
    ["zone1-0000000100", "select 1; select 2"] ⟨"zone1", 100⟩
    ⟨[⟨"r1"⟩, ⟨"r2"⟩]⟩ rfl rfl rfl
  exact h.2.1

/-- C6: `GetUnresolvedTransactions` always forwards positional argument 0 —
any string, the empty string included — unchanged as the request keyspace,
with no local validation; its trace never contains a table write, and on a
successful remote call and encoding the reply is written as one serialized
document line. -/
theorem C6_getUnresolved_passthrough_document_only (env : Env) (args : List String) :
    Event.rpcGetUnresolved ⟨argN args 0⟩ ∈ (commandGetUnresolvedTransactions env args).2
    ∧ (∀ qr, Event.writeTable qr ∉ (commandGetUnresolvedTransactions env args).2)
    ∧ (∀ resp d, env.getUnresolved ⟨argN args 0⟩ = .ok resp →
        marshalTransactionsJSON env resp.transactions = .ok d →
        commandGetUnresolvedTransactions env args
          = (.ok (), [.finishedParsing, .rpcGetUnresolved ⟨argN args 0⟩,
              .printDocLine d])) := by
  refine ⟨?_, ?_, ?_⟩
  · cases hrpc : env.getUnresolved ⟨argN args 0⟩ with
    | error e => simp [commandGetUnresolvedTransactions, hrpc]
    | ok resp =>
      cases hm : marshalTransactionsJSON env resp.transactions with
      | error e => simp [commandGetUnresolvedTransactions, hrpc, hm]
      | ok d => simp [commandGetUnresolvedTransactions, hrpc, hm]
  · intro qr
    cases hrpc : env.getUnresolved ⟨argN args 0⟩ with
    | error e => simp [commandGetUnresolvedTransactions, hrpc]
    | ok resp =>
      cases hm : marshalTransactionsJSON env resp.transactions with
      | error e => simp [commandGetUnresolvedTransactions, hrpc, hm]
      | ok d => simp [commandGetUnresolvedTransactions, hrpc, hm]
  · intro resp d hrpc hm
    simp [commandGetUnresolvedTransactions, hrpc, hm]

/-- Witness for C6 at keyspace `"ks1"`. -/
theorem C6_getUnresolved_passthrough_document_only_witness :
    commandGetUnresolvedTransactions testEnv ["ks1"]
      = (.ok (), [.finishedParsing, .rpcGetUnresolved ⟨"ks1"⟩,
          .printDocLine (Doc.arr [.atom "tx1"])]) := by
  have h := C6_getUnresolved_passthrough_document_only testEnv ["ks1"]
  exact h.2.2 ⟨[⟨"tx1"⟩]⟩ (Doc.arr [.atom "tx1"]) rfl rfl

/-- C7: whenever the remote call of any of the four commands fails, the
command returns that exact error value, its trace carries exactly one remote
call (no retry), and no output write occurs. -/
theorem C7_rpc_error_propagated_verbatim (env : Env) (args : List String) (e : Err) :
    (∀ (opts : ExecuteFetchAsAppOptions) (ta : TabletAlias),
        parseTabletAlias (argN args 0) = .ok ta →
        env.execApp (builtAppRequest opts args ta) = .error e →
        commandExecuteFetchAsApp env opts args
          = (.error e, [.finishedParsing, .rpcApp (builtAppRequest opts args ta)])
        ∧ outputEvents (commandExecuteFetchAsApp env opts args).2 = []
        ∧ rpcCount (commandExecuteFetchAsApp env opts args).2 = 1)
    ∧ (∀ (opts : ExecuteFetchAsDBAOptions) (ta : TabletAlias),
        parseTabletAlias (argN args 0) = .ok ta →
        env.execDBA (builtDBARequest opts args ta) = .error e →
        commandExecuteFetchAsDBA env opts args
          = (.error e, [.finishedParsing, .rpcDBA (builtDBARequest opts args ta)])
        ∧ outputEvents (commandExecuteFetchAsDBA env opts args).2 = []
        ∧ rpcCount (commandExecuteFetchAsDBA env opts args).2 = 1)
    ∧ (∀ (opts : ExecuteMultiFetchAsDBAOptions) (ta : TabletAlias),
        parseTabletAlias (argN args 0) = .ok ta →
        env.execMulti (builtMultiRequest opts args ta) = .error e →
        commandExecuteMultiFetchAsDBA env opts args
          = (.error e, [.finishedParsing, .rpcMulti (builtMultiRequest opts args ta)])
        ∧ outputEvents (commandExecuteMultiFetchAsDBA env opts args).2 = []
        ∧ rpcCount (commandExecuteMultiFetchAsDBA env opts args).2 = 1)
    ∧ (env.getUnresolved ⟨argN args 0⟩ = .error e →
        commandGetUnresolvedTransactions env args
          = (.error e, [.finishedParsing, .rpcGetUnresolved ⟨argN args 0⟩])
        ∧ outputEvents (commandGetUnresolvedTransactions env args).2 = []
        ∧ rpcCount (commandGetUnresolvedTransactions env args).2 = 1) := by
  refine ⟨fun opts ta hp hrpc => ?_, fun opts ta hp hrpc => ?_,
    fun opts ta hp hrpc => ?_, fun hrpc => ?_⟩
  · refine ⟨?_, ?_, ?_⟩ <;>
      simp [commandExecuteFetchAsApp, hp, hrpc, outputEvents, rpcCount,
        Event.isOutput, Event.isRpc]
  · refine ⟨?_, ?_, ?_⟩ <;>
      simp [commandExecuteFetchAsDBA, hp, hrpc, outputEvents, rpcCount,
        Event.isOutput, Event.isRpc]
  · refine ⟨?_, ?_, ?_⟩ <;>
      simp [commandExecuteMultiFetchAsDBA, hp, hrpc, outputEvents, rpcCount,
        Event.isOutput, Event.isRpc]
  · refine ⟨?_, ?_, ?_⟩ <;>
      simp [commandGetUnresolvedTransactions, hrpc, outputEvents, rpcCount,
        Event.isOutput, Event.isRpc]

/-- Witness for C7 with a failing transport, on a fetch command and on
`GetUnresolvedTransactions` at the ordinary keyspace `"ks1"`. -/
theorem C7_rpc_error_propagated_verbatim_witness :
    commandExecuteFetchAsApp rpcFailEnv ⟨10000, false, false⟩
        ["zone1-0000000100", "select 1"]
      = (.error (.other "transport failure"),
          [.finishedParsing, .rpcApp (builtAppRequest ⟨10000, false, false⟩
            ["zone1-0000000100", "select 1"] ⟨"zone1", 100⟩)])
    ∧ commandGetUnresolvedTransactions rpcFailEnv ["ks1"]
      = (.error (.other "transport failure"),
          [.finishedParsing, .rpcGetUnresolved ⟨"ks1"⟩]) := by
  have h1 := C7_rpc_error_propagated_verbatim rpcFailEnv
    ["zone1-0000000100", "select 1"] (.other "transport failure")
  have h2 := C7_rpc_error_propagated_verbatim rpcFailEnv ["ks1"]
    (.other "transport failure")
  exact ⟨(h1.1 ⟨10000, false, false⟩ ⟨"zone1", 100⟩ rfl rfl).1,
    (h2.2.2.2 rfl).1⟩

/-- C8: in serialized-document mode, a document-encoder failure after a
successful remote call makes the command return that encoding error, with no
document written. -/
theorem C8_encoding_error_surfaced (env : Env) (args : List String) (e : Err) :
    (∀ (opts : ExecuteFetchAsAppOptions) (ta : TabletAlias) resp,
        parseTabletAlias (argN args 0) = .ok ta →
        opts.json = true →
        env.execApp (builtAppRequest opts args ta) = .ok resp →
        marshalResultJSON env (proto3ToResult resp.result) = .error e →
        (commandExecuteFetchAsApp env opts args).1 = .error e
        ∧ outputEvents (commandExecuteFetchAsApp env opts args).2 = [])
    ∧ (∀ (opts : ExecuteFetchAsDBAOptions) (ta : TabletAlias) resp,
        parseTabletAlias (argN args 0) = .ok ta →
        opts.json = true →
        env.execDBA (builtDBARequest opts args ta) = .ok resp →
        marshalResultJSON env (proto3ToResult resp.result) = .error e →
        (commandExecuteFetchAsDBA env opts args).1 = .error e
        ∧ outputEvents (commandExecuteFetchAsDBA env opts args).2 = [])
    ∧ (∀ (opts : ExecuteMultiFetchAsDBAOptions) (ta : TabletAlias) resp,
        parseTabletAlias (argN args 0) = .ok ta →
        opts.json = true →
        env.execMulti (builtMultiRequest opts args ta) = .ok resp →
        marshalResultsJSON env (resp.results.map proto3ToResult) = .error e →
        (commandExecuteMultiFetchAsDBA env opts args).1 = .error e
        ∧ outputEvents (commandExecuteMultiFetchAsDBA env opts args).2 = [])
    ∧ (∀ resp,
        env.getUnresolved ⟨argN args 0⟩ = .ok resp →
        marshalTransactionsJSON env resp.transactions = .error e →
        (commandGetUnresolvedTransactions env args).1 = .error e
        ∧ outputEvents (commandGetUnresolvedTransactions env args).2 = []) := by
  refine ⟨fun opts ta resp hp hj hrpc hm => ?_, fun opts ta resp hp hj hrpc hm => ?_,
    fun opts ta resp hp hj hrpc hm => ?_, fun resp hrpc hm => ?_⟩
  · exact ⟨by simp [commandExecuteFetchAsApp, hp, hrpc, hj, hm],
      by simp [commandExecuteFetchAsApp, hp, hrpc, hj, hm, outputEvents, Event.isOutput]⟩
  · exact ⟨by simp [commandExecuteFetchAsDBA, hp, hrpc, hj, hm],
      by simp [commandExecuteFetchAsDBA, hp, hrpc, hj, hm, outputEvents, Event.isOutput]⟩
  · exact ⟨by simp [commandExecuteMultiFetchAsDBA, hp, hrpc, hj, hm],
      by simp [commandExecuteMultiFetchAsDBA, hp, hrpc, hj, hm, outputEvents, Event.isOutput]⟩
  · exact ⟨by simp [commandGetUnresolvedTransactions, hrpc, hm],
      by simp [commandGetUnresolvedTransactions, hrpc, hm, outputEvents, Event.isOutput]⟩

/-- Witness for C8 with an encoder that rejects every value, on a fetch
command and on `GetUnresolvedTransactions` at the ordinary keyspace
`"ks1"`. -/
theorem C8_encoding_error_surfaced_witness :
    ((commandExecuteFetchAsApp encFailEnv ⟨10000, false, true⟩
        ["zone1-0000000100", "select 1"]).1 = .error (.other "unrepresentable value")
      ∧ outputEvents (commandExecuteFetchAsApp encFailEnv ⟨10000, false, true⟩
          ["zone1-0000000100", "select 1"]).2 = [])
    ∧ ((commandGetUnresolvedTransactions encFailEnv ["ks1"]).1
          = .error (.other "unrepresentable value")
      ∧ outputEvents (commandGetUnresolvedTransactions encFailEnv ["ks1"]).2 = []) := by
  have h1 := C8_encoding_error_surfaced encFailEnv ["zone1-0000000100", "select 1"]
    (.other "unrepresentable value")
  have h2 := C8_encoding_error_surfaced encFailEnv ["ks1"]
    (.other "unrepresentable value")
  exact ⟨h1.1 ⟨10000, false, true⟩ ⟨"zone1", 100⟩ ⟨⟨"app-result"⟩⟩ rfl rfl rfl rfl,
    h2.2.2.2 ⟨[⟨"tx1"⟩]⟩ rfl rfl⟩

/-- C9: in every invocation of the four commands, the `cli.FinishedParsing`
checkpoint occurs exactly once and is the first event of the trace, hence
before the remote call; for the three fetch commands it never occurs when the
tablet-alias parse fails (the trace is then empty). -/
theorem C9_finishedParsing_once_first (env : Env) (args : List String) :
    (∀ opts : ExecuteFetchAsAppOptions,
        (∀ e, parseTabletAlias (argN args 0) = .error e →
          fpCount (commandExecuteFetchAsApp env opts args).2 = 0)
        ∧ (∀ ta, parseTabletAlias (argN args 0) = .ok ta →
          fpCount (commandExecuteFetchAsApp env opts args).2 = 1
          ∧ (commandExecuteFetchAsApp env opts args).2.head? = some .finishedParsing))
    ∧ (∀ opts : ExecuteFetchAsDBAOptions,
        (∀ e, parseTabletAlias (argN args 0) = .error e →
          fpCount (commandExecuteFetchAsDBA env opts args).2 = 0)
        ∧ (∀ ta, parseTabletAlias (argN args 0) = .ok ta →
          fpCount (commandExecuteFetchAsDBA env opts args).2 = 1
          ∧ (commandExecuteFetchAsDBA env opts args).2.head? = some .finishedParsing))
    ∧ (∀ opts : ExecuteMultiFetchAsDBAOptions,
        (∀ e, parseTabletAlias (argN args 0) = .error e →
          fpCount (commandExecuteMultiFetchAsDBA env opts args).2 = 0)
        ∧ (∀ ta, parseTabletAlias (argN args 0) = .ok ta →
          fpCount (commandExecuteMultiFetchAsDBA env opts args).2 = 1
          ∧ (commandExecuteMultiFetchAsDBA env opts args).2.head?
              = some .finishedParsing))
    ∧ (fpCount (commandGetUnresolvedTransactions env args).2 = 1
        ∧ (commandGetUnresolvedTransactions env args).2.head?
            = some .finishedParsing) := by
  refine ⟨?_, ?_, ?_, ?_⟩
  · intro opts
    refine ⟨fun e he => by simp [commandExecuteFetchAsApp, he, fpCount], fun ta hta => ?_⟩
    cases hrpc : env.execApp (builtAppRequest opts args ta) with
    | error e =>
      exact ⟨by simp [commandExecuteFetchAsApp, hta, hrpc, fpCount, Event.isFinishedParsing],
        by simp [commandExecuteFetchAsApp, hta, hrpc]⟩
    | ok resp =>
      by_cases hj : opts.json
      · cases hm : marshalResultJSON env (proto3ToResult resp.result) with
        | error e =>
          exact ⟨by simp [commandExecuteFetchAsApp, hta, hrpc, hj, hm, fpCount,
              Event.isFinishedParsing],
            by simp [commandExecuteFetchAsApp, hta, hrpc, hj, hm]⟩
        | ok d =>
          exact ⟨by simp [commandExecuteFetchAsApp, hta, hrpc, hj, hm, fpCount,
              Event.isFinishedParsing],
            by simp [commandExecuteFetchAsApp, hta, hrpc, hj, hm]⟩
      · exact ⟨by simp [commandExecuteFetchAsApp, hta, hrpc, hj, fpCount,
            Event.isFinishedParsing],
          by simp [commandExecuteFetchAsApp, hta, hrpc, hj]⟩
  · intro opts
    refine ⟨fun e he => by simp [commandExecuteFetchAsDBA, he, fpCount], fun ta hta => ?_⟩
    cases hrpc : env.execDBA (builtDBARequest opts args ta) with
    | error e =>
      exact ⟨by simp [commandExecuteFetchAsDBA, hta, hrpc, fpCount, Event.isFinishedParsing],
        by simp [commandExecuteFetchAsDBA, hta, hrpc]⟩
    | ok resp =>
      by_cases hj : opts.json
      · cases hm : marshalResultJSON env (proto3ToResult resp.result) with
        | error e =>
          exact ⟨by simp [commandExecuteFetchAsDBA, hta, hrpc, hj, hm, fpCount,
              Event.isFinishedParsing],
            by simp [commandExecuteFetchAsDBA, hta, hrpc, hj, hm]⟩
        | ok d =>
          exact ⟨by simp [commandExecuteFetchAsDBA, hta, hrpc, hj, hm, fpCount,
              Event.isFinishedParsing],
            by simp [commandExecuteFetchAsDBA, hta, hrpc, hj, hm]⟩
      · exact ⟨by simp [commandExecuteFetchAsDBA, hta, hrpc, hj, fpCount,
            Event.isFinishedParsing],
          by simp [commandExecuteFetchAsDBA, hta, hrpc, hj]⟩
  · intro opts
    refine ⟨fun e he => by simp [commandExecuteMultiFetchAsDBA, he, fpCount],
      fun ta hta => ?_⟩
    cases hrpc : env.execMulti (builtMultiRequest opts args ta) with
    | error e =>
      exact ⟨by simp [commandExecuteMultiFetchAsDBA, hta, hrpc, fpCount,
          Event.isFinishedParsing],
        by simp [commandExecuteMultiFetchAsDBA, hta, hrpc]⟩
    | ok resp =>
      by_cases hj : opts.json
      · cases hm : marshalResultsJSON env (resp.results.map proto3ToResult) with
        | error e =>
          exact ⟨by simp [commandExecuteMultiFetchAsDBA, hta, hrpc, hj, hm, fpCount,
              Event.isFinishedParsing],
            by simp [commandExecuteMultiFetchAsDBA, hta, hrpc, hj, hm]⟩
        | ok d =>
          exact ⟨by simp [commandExecuteMultiFetchAsDBA, hta, hrpc, hj, hm, fpCount,
              Event.isFinishedParsing],
            by simp [commandExecuteMultiFetchAsDBA, hta, hrpc, hj, hm]⟩
      · exact ⟨by simp [commandExecuteMultiFetchAsDBA, hta, hrpc, hj, fpCount,
            Event.isFinishedParsing, List.filter_map, Function.comp_def],
          by simp [commandExecuteMultiFetchAsDBA, hta, hrpc, hj]⟩
  · cases hrpc : env.getUnresolved ⟨argN args 0⟩ with
    | error e =>
      exact ⟨by simp [commandGetUnresolvedTransactions, hrpc, fpCount,
          Event.isFinishedParsing],
        by simp [commandGetUnresolvedTransactions, hrpc]⟩
    | ok resp =>
      cases hm : marshalTransactionsJSON env resp.transactions with
      | error e =>
        exact ⟨by simp [commandGetUnresolvedTransactions, hrpc, hm, fpCount,
            Event.isFinishedParsing],
          by simp [commandGetUnresolvedTransactions, hrpc, hm]⟩
      | ok d =>
        exact ⟨by simp [commandGetUnresolvedTransactions, hrpc, hm, fpCount,
            Event.isFinishedParsing],
          by simp [commandGetUnresolvedTransactions, hrpc, hm]⟩

/-- Witness for C9: the checkpoint fires exactly once on a well-formed alias
and never on a malformed one. -/
theorem C9_finishedParsing_once_first_witness :
    fpCount (commandExecuteFetchAsApp testEnv ⟨10000, false, false⟩
        ["zone1-0000000100", "select 1"]).2 = 1
    ∧ fpCount (commandExecuteFetchAsApp testEnv ⟨10000, false, false⟩
        ["not-an-alias", "select 1"]).2 = 0 := by
  have h1 := C9_finishedParsing_once_first testEnv ["zone1-0000000100", "select 1"]
  have h2 := C9_finishedParsing_once_first testEnv ["not-an-alias", "select 1"]
  exact ⟨((h1.1 ⟨10000, false, false⟩).2 ⟨"zone1", 100⟩ rfl).1,
    (h2.1 ⟨10000, false, false⟩).1 (.malformedIdentity "not-an-alias") rfl⟩

/-- C10: in table mode, once the remote call has succeeded each fetch command
returns nil — the table-rendering step has no error path. -/
theorem C10_table_mode_total_after_rpc (env : Env) (args : List String)
    (ta : TabletAlias)
    (hp : parseTabletAlias (argN args 0) = .ok ta) :
    (∀ (opts : ExecuteFetchAsAppOptions) resp, opts.json = false →
        env.execApp (builtAppRequest opts args ta) = .ok resp →
        (commandExecuteFetchAsApp env opts args).1 = .ok ())
    ∧ (∀ (opts : ExecuteFetchAsDBAOptions) resp, opts.json = false →
        env.execDBA (builtDBARequest opts args ta) = .ok resp →
        (commandExecuteFetchAsDBA env opts args).1 = .ok ())
    ∧ (∀ (opts : ExecuteMultiFetchAsDBAOptions) resp, opts.json = false →
        env.execMulti (builtMultiRequest opts args ta) = .ok resp →
        (commandExecuteMultiFetchAsDBA env opts args).1 = .ok ()) := by
  refine ⟨fun opts resp hj hrpc => ?_, fun opts resp hj hrpc => ?_,
    fun opts resp hj hrpc => ?_⟩ <;>
    simp [commandExecuteFetchAsApp, commandExecuteFetchAsDBA,
      commandExecuteMultiFetchAsDBA, hp, hrpc, hj]

/-- Witness for C10 on a default table-mode invocation. -/
theorem C10_table_mode_total_after_rpc_witness :
    (commandExecuteFetchAsApp testEnv ⟨10000, false, false⟩
        ["zone1-0000000100", "select 1"]).1 = .ok () := by
  have h := C10_table_mode_total_after_rpc testEnv ["zone1-0000000100", "select 1"]
    ⟨"zone1", 100⟩ rfl
  exact h.1 ⟨10000, false, false⟩ ⟨⟨"app-result"⟩⟩ rfl rfl

end Vtctld
